import Mathlib

/-!
Shallow embedding of nydusify-py (src/: nydus_image.py, copier.py,
manifest.py, repacker.py).

External processes (rclone, regctl, nydus-image) are modelled as oracles
passed to the embedded functions; each embedded function returns, besides
its value, the trace of external invocations it makes, and errors are
explicit `Except` / `Option PyError` values mirroring raised Python
exceptions.
-/

/-- Filesystem paths, modelled as strings (Python `pathlib.Path`). -/
abbrev FPath := String

/-- `directory / name` on paths. -/
def pathJoin (d : FPath) (name : String) : FPath := d ++ "/" ++ name

/-- Python exceptions that the embedded code can raise. -/
inductive PyError where
  | valueError (msg : String)
  | assertionError (msg : String)
  | keyError (key : String)
  | fileNotFoundError (msg : String)
  | calledProcessError (returncode : Int) (stdout stderr : String)
deriving DecidableEq, Repr

/-- nydus_image.py `NydusS3Backend` (dataclass).  The source field
`object_prefix` is named `object_pfx` here. -/
structure NydusS3Backend where
  endpoint : String
  bucket : String
  region : String
  access_key : String
  secret_key : String
  object_pfx : String := "nydus/"
deriving DecidableEq, Repr

/-- nydus_image.py `NydusLocalFilesystemBackend` (dataclass). -/
structure NydusLocalFilesystemBackend where
  blob_dir : FPath
deriving DecidableEq, Repr

/-- nydus_image.py `NydusBackend = NydusS3Backend | NydusLocalFilesystemBackend`.
Python dataclass `==` is field-wise structural equality, and instances of the
two different classes are never equal, which matches `DecidableEq` on this
closed sum. -/
inductive NydusBackend where
  | s3 (b : NydusS3Backend)
  | localFs (b : NydusLocalFilesystemBackend)
deriving DecidableEq, Repr

/-- Free-form `config` map of an image config (`dict[str, Any]` in Python),
carried opaquely: the code never inspects its contents. -/
abbrev ConfigMap := List (String × String)

/-- nydus_image.py `NydusImageConfig` (dataclass with defaults). -/
structure NydusImageConfig where
  architecture : String := "amd64"
  os : String := "linux"
  config : Option ConfigMap := none
deriving DecidableEq, Repr

/-- The JSON object read from / written to `config.json`: the three keys
`NydusImageConfig.from_dict` / `to_dict` touch, each possibly absent. -/
structure ConfigDict where
  architecture : Option String := none
  os : Option String := none
  config : Option ConfigMap := none
deriving DecidableEq, Repr

/-- nydus_image.py `NydusImageConfig.from_dict`: `data.get` with defaults. -/
def NydusImageConfig.from_dict (data : ConfigDict) : NydusImageConfig :=
  { architecture := data.architecture.getD "amd64"
    os := data.os.getD "linux"
    config := data.config }

/-- nydus_image.py `NydusImageConfig.to_dict`: always writes `architecture`
and `os`, writes `config` only when it is not `None`. -/
def NydusImageConfig.to_dict (c : NydusImageConfig) : ConfigDict :=
  { architecture := some c.architecture
    os := some c.os
    config := c.config }

/-- nydus_image.py `NydusBlobLocation` (dataclass). -/
structure NydusBlobLocation where
  digest : String
  backend : NydusBackend
deriving DecidableEq, Repr

/-- nydus_image.py `NydusImageWithBackends` (dataclass). -/
structure NydusImageWithBackends where
  bootstrap_local_path : FPath
  layers : List NydusBlobLocation
  image_config : NydusImageConfig
deriving DecidableEq, Repr

/-- A JSON value in the position of a `blob_id` field: either a string or a
non-string value (number, null, ...), whose exact shape the code never uses
beyond the `isinstance(digest, str)` test. -/
inductive PyVal where
  | vstr (s : String)
  | vother (tag : Nat)
deriving DecidableEq, Repr

/-- One entry of the JSON array printed by `nydus-image inspect --request
blobs`; the code reads exactly the `blob_id` field of each entry. -/
structure BlobEntry where
  blob_id : PyVal
deriving DecidableEq, Repr

/-- Membership test in the Python string `'0123456789abcdefABCDEF'`. -/
def isHexChar (c : Char) : Bool :=
  "0123456789abcdefABCDEF".toList.contains c

/-- The first assertion message (if any) that `get_blob_digests`'s validation
loop raises for one digest value, in the source's order of checks:
string, non-empty, all-hex, length at least 8. -/
def digestAssertError (v : PyVal) : Option String :=
  match v with
  | .vother _ => some "Blob ID must be a string"
  | .vstr s =>
    if s.length = 0 then some "Blob ID cannot be empty"
    else if ¬ (s.toList.all isHexChar) then some "Blob ID must be hexadecimal"
    else if s.length < 8 then some "Blob ID too short (expected at least 8 chars)"
    else none

/-- nydus_image.py `get_blob_digests`, applied to the parsed inspection
output.  The subprocess call itself is the caller's oracle; this function
embeds the list-comprehension over `blob_id` and the assertion loop, and
returns the digest list on success.  (Since validation guarantees every
value is a string, the final `filterMap` extracts exactly the strings,
in order, as the source's `return blob_digests` does.) -/
def get_blob_digests (blob_data : List BlobEntry) : Except PyError (List String) :=
  let blob_digests := blob_data.map (·.blob_id)
  match blob_digests.findSome? digestAssertError with
  | some msg => .error (.assertionError msg)
  | none => .ok (blob_digests.filterMap fun v =>
      match v with
      | .vstr s => some s
      | .vother _ => none)

/-- nydus_image.py `change_backends`: rebuild every layer with the same
digest and the new backend (the Python loop of appends is a map). -/
def change_backends (image : NydusImageWithBackends) (new_backend : NydusBackend) :
    NydusImageWithBackends :=
  { bootstrap_local_path := image.bootstrap_local_path
    layers := image.layers.map fun layer =>
      { digest := layer.digest, backend := new_backend }
    image_config := image.image_config }

/-! ## copier.py -/

/-- copier.py `RcloneConfig`: a backend plus a lowercase config name
("source" or "target" at both call sites, so the constructor's
lowercase assertion always holds). -/
structure RcloneConfig where
  backend : NydusBackend
  name : String
deriving DecidableEq, Repr

/-- copier.py `RcloneConfig.with_digest`: the rclone CLI path for this side.
S3 paths embed bucket, object key prefix and digest; local-filesystem paths
are the blob directory (rclone resolves the filename itself).  The sum type
is closed, so the `case _` ValueError branch of the source is unreachable. -/
def RcloneConfig.with_digest (c : RcloneConfig) (digest : String) : String :=
  match c.backend with
  | .s3 b => c.name ++ ":" ++ b.bucket ++ "/" ++ b.object_pfx ++ digest
  | .localFs b => b.blob_dir

/-- copier.py `RcloneConfig.env`: environment variables for this side. -/
def RcloneConfig.env (c : RcloneConfig) : List (String × String) :=
  match c.backend with
  | .s3 b =>
    let env_pre := "RCLONE_CONFIG_" ++ c.name.toUpper
    [ (env_pre ++ "_TYPE", "s3")
    , (env_pre ++ "_ACCESS_KEY_ID", b.access_key)
    , (env_pre ++ "_SECRET_ACCESS_KEY", b.secret_key)
    , (env_pre ++ "_ENDPOINT", b.endpoint)
    , (env_pre ++ "_REGION", b.region) ]
  | .localFs _ => []

/-- One `rclone copy <source> <target>` subprocess invocation: the digest
being copied, the two CLI paths, and the injected environment (on top of
`os.environ`, which is external). -/
structure RcloneInvocation where
  digest : String
  sourcePath : String
  targetPath : String
  env : List (String × String)
deriving DecidableEq, Repr

/-- Outcome of one transport subprocess: exit 0, or a nonzero exit with
captured stdout/stderr (`subprocess.CalledProcessError`). -/
inductive TransportResult where
  | ok
  | fail (returncode : Int) (stdout stderr : String)
deriving DecidableEq, Repr

/-- The transport oracle: what each rclone invocation would do. -/
abbrev Transport := RcloneInvocation → TransportResult

/-- The invocation copier.py `rclone_copy` assembles from a digest and the
two rclone configs (paths via `with_digest`, env as the merge of the two
sides' variables; the key sets are disjoint since the names differ). -/
def rcloneInvocation (digest : String) (source_config target_config : RcloneConfig) :
    RcloneInvocation :=
  { digest
    sourcePath := source_config.with_digest digest
    targetPath := target_config.with_digest digest
    env := source_config.env ++ target_config.env }

/-- copier.py `rclone_copy`: asserts the two config names differ, runs the
subprocess and re-raises a nonzero exit as `CalledProcessError`.
Returns the invocations performed together with the error, if any. -/
def rclone_copy (transport : Transport) (digest : String)
    (source_config target_config : RcloneConfig) :
    List RcloneInvocation × Option PyError :=
  if source_config.name == target_config.name then
    ([], some (.assertionError "cannot copy between rclone configs with the same name"))
  else
    let inv := rcloneInvocation digest source_config target_config
    match transport inv with
    | .ok => ([inv], none)
    | .fail returncode stdout stderr =>
      ([inv], some (.calledProcessError returncode stdout stderr))

/-- copier.py `copy_blob`: assert equal digests, skip when the two backends
are structurally equal, otherwise invoke the transport through the
"source"/"target" rclone configs. -/
def copy_blob (transport : Transport) (source_blob target_blob : NydusBlobLocation) :
    List RcloneInvocation × Option PyError :=
  if source_blob.digest != target_blob.digest then
    ([], some (.assertionError "copy_blob digests differ"))
  else if source_blob.backend == target_blob.backend then
    ([], none)
  else
    rclone_copy transport source_blob.digest
      ⟨source_blob.backend, "source"⟩ ⟨target_blob.backend, "target"⟩

/-- The per-blob loop of copier.py `copy_blobs`: process pairs in order,
stopping at the first raised error; the trace accumulates every invocation
attempted (including a failing one). -/
def runBlobs (transport : Transport) :
    List (NydusBlobLocation × NydusBlobLocation) → List RcloneInvocation × Option PyError
  | [] => ([], none)
  | p :: rest =>
    match copy_blob transport p.1 p.2 with
    | (invs, some e) => (invs, some e)
    | (invs, none) =>
      let r := runBlobs transport rest
      (invs ++ r.1, r.2)

/-- copier.py `copy_blobs`: the three preconditions (same bootstrap path,
same layer count, per-index equal digests over `zip`), then the per-blob
loop. -/
def copy_blobs (transport : Transport) (source_image target_image : NydusImageWithBackends) :
    List RcloneInvocation × Option PyError :=
  if source_image.bootstrap_local_path != target_image.bootstrap_local_path then
    ([], some (.valueError "Can only copy_blobs between images with the same bootstrap"))
  else if source_image.layers.length != target_image.layers.length then
    ([], some (.valueError "Two images with the same bootstrap had different number of layers!"))
  else if (source_image.layers.zip target_image.layers).any
      (fun p => p.1.digest != p.2.digest) then
    ([], some (.valueError "Tried to copy between images with blobs having different digests"))
  else
    runBlobs transport (source_image.layers.zip target_image.layers)

/-- A transport oracle on which every invocation succeeds. -/
def okTransport : Transport := fun _ => .ok

/-- "Copy-compatible" (spec §3): same bootstrap path, same layer count,
per-index equal digests. -/
def copyCompatible (s t : NydusImageWithBackends) : Prop :=
  s.bootstrap_local_path = t.bootstrap_local_path ∧
  s.layers.length = t.layers.length ∧
  ∀ p ∈ s.layers.zip t.layers, p.1.digest = p.2.digest

instance (s t : NydusImageWithBackends) : Decidable (copyCompatible s t) := by
  unfold copyCompatible; infer_instance

/-! ## nydus_image.py: directory transfer -/

/-- The two files of a directory as the directory-transfer code sees them:
the raw bytes of `bootstrap` (opaque, modelled as a string) and the parsed
JSON object of `config.json`, each possibly absent. -/
structure DirState where
  bootstrap : Option String
  configJson : Option ConfigDict
deriving DecidableEq, Repr

/-- The `nydus-image inspect` oracle: the parsed blob list the external tool
reports for a bootstrap with the given content.  (The tool's output is a
function of the file content, which is what the inspection consumes.) -/
abbrev InspectOracle := String → List BlobEntry

/-- nydus_image.py `read_from_dir`: require `bootstrap`, read the optional
`config.json` (defaults when absent), inspect the bootstrap for digests, and
bind every digest to `backend`.  The descriptor's bootstrap path is
`directory/bootstrap`. -/
def read_from_dir (inspect : InspectOracle) (state : DirState)
    (directory : FPath) (backend : NydusBackend) :
    Except PyError NydusImageWithBackends :=
  match state.bootstrap with
  | none => .error (.fileNotFoundError "Bootstrap file not found")
  | some content =>
    let image_config :=
      match state.configJson with
      | some config_data => NydusImageConfig.from_dict config_data
      | none => {}
    match get_blob_digests (inspect content) with
    | .error e => .error e
    | .ok blob_digests =>
      .ok { bootstrap_local_path := pathJoin directory "bootstrap"
            layers := blob_digests.map fun digest => { digest, backend }
            image_config }

/-- nydus_image.py `write_to_dir`: the resulting directory contents.
`bootstrapContent` is the content of the file at `image.bootstrap_local_path`
(copied with `shutil.copy2` unless source and target path coincide, in which
case it is already there — either way the written directory holds that
content); `config.json` is the serialized image config. -/
def write_to_dir (bootstrapContent : String) (image : NydusImageWithBackends) : DirState :=
  { bootstrap := some bootstrapContent
    configJson := some image.image_config.to_dict }

/-! ## manifest.py -/

/-- The `config` section of a manifest: the keys the download code reads. -/
structure ManifestConfigSection where
  mediaType : Option String := none
  digest : Option String := none
  size : Option Int := none
deriving DecidableEq, Repr

/-- One entry of a manifest's `layers` array: the keys the code reads.
The source field `annotations` is named `annots` here. -/
structure ManifestLayer where
  mediaType : Option String := none
  digest : Option String := none
  size : Option Int := none
  annots : Option (List (String × String)) := none
deriving DecidableEq, Repr

/-- A parsed OCI/Docker manifest: the keys the code reads, each possibly
absent (`dict.get`). -/
structure Manifest where
  schemaVersion : Option Int := none
  mediaType : Option String := none
  config : Option ManifestConfigSection := none
  layers : Option (List ManifestLayer) := none
deriving DecidableEq, Repr

/-- manifest.py `create_oci_manifest`: the exact literal the source builds. -/
def create_oci_manifest (config_digest : String) (config_size : Int)
    (bootstrap_digest : String) (bootstrap_size : Int) : Manifest :=
  { schemaVersion := some 2
    mediaType := some "application/vnd.docker.distribution.manifest.v2+json"
    config := some
      { mediaType := some "application/vnd.docker.container.image.v1+json"
        digest := some config_digest
        size := some config_size }
    layers := some
      [ { mediaType := some "application/vnd.oci.image.layer.v1.tar+gzip"
          digest := some bootstrap_digest
          size := some bootstrap_size
          annots := some
            [ ("containerd.io/snapshot/nydus-bootstrap", "true")
            , ("containerd.io/snapshot/nydus-fs-version", "6") ] } ] }

/-- One registry blob download: a `regctl blob get <reference> <digest>`
invocation.  (`regctl manifest get` is not a blob download.) -/
inductive DlEvent where
  | blobGet (digest : String)
deriving DecidableEq, Repr

/-- Oracles for the external effects of the download path: the parsed config
JSON served for a config digest, the bootstrap file content extracted from
the layer tarball served for a layer digest (`none` when the tarball lacks
the fixed member `image/image.boot`), and bootstrap inspection. -/
structure RegistryOracles where
  configBlob : String → ConfigDict
  bootstrapBlob : String → Option String
  inspect : InspectOracle

/-- manifest.py `download_bootstrap_and_manifest`, applied to the manifest
already fetched and parsed (the `regctl manifest get` step).  Follows the
source's validation order exactly; returns the trace of blob downloads
performed together with the result.  Note the config blob is downloaded
after the config-section checks but before the layer checks, exactly as in
the source. -/
def download_bootstrap_and_manifest (oracles : RegistryOracles)
    (manifest_data : Manifest) (backend : NydusBackend) (output_dir : FPath) :
    List DlEvent × Except PyError NydusImageWithBackends :=
  if manifest_data.schemaVersion != some 2 then
    ([], .error (.valueError "Unsupported manifest schema version"))
  else if ¬ [ "application/vnd.docker.distribution.manifest.v2+json"
            , "application/vnd.oci.image.manifest.v1+json"
            ].contains (manifest_data.mediaType.getD "") ∨ manifest_data.mediaType = none then
    ([], .error (.valueError "Unexpected manifest media type"))
  else
    match manifest_data.config with
    | none => ([], .error (.valueError "No config section found in manifest"))
    | some config_section =>
      if config_section.mediaType != some "application/vnd.oci.image.config.v1+json" then
        ([], .error (.valueError "Unexpected config media type"))
      else
        match config_section.digest with
        | none => ([], .error (.keyError "digest"))
        | some config_digest =>
          let configTrace := [DlEvent.blobGet config_digest]
          let config_data := oracles.configBlob config_digest
          match manifest_data.layers.getD [] with
          | [] => (configTrace, .error (.valueError "No layers found in manifest"))
          | bootstrap_layer :: restLayers =>
            if restLayers.length != 0 then
              (configTrace, .error (.valueError "Expected exactly 1 layer in manifest"))
            else if bootstrap_layer.mediaType != some "application/vnd.oci.image.layer.v1.tar+gzip" then
              (configTrace, .error (.valueError "Unexpected layer media type"))
            else if (bootstrap_layer.annots.getD []).lookup
                "containerd.io/snapshot/nydus-bootstrap" != some "true" then
              (configTrace, .error (.valueError "Invalid or missing nydus-bootstrap annotation"))
            else if (bootstrap_layer.annots.getD []).lookup
                "containerd.io/snapshot/nydus-fs-version" != some "6" then
              (configTrace, .error (.valueError "Invalid or missing nydus-fs-version annotation"))
            else
              match bootstrap_layer.digest with
              | none => (configTrace, .error (.keyError "digest"))
              | some bootstrap_digest =>
                let fullTrace := configTrace ++ [DlEvent.blobGet bootstrap_digest]
                match oracles.bootstrapBlob bootstrap_digest with
                | none =>
                  (fullTrace, .error (.valueError
                    "Bootstrap file image/image.boot not found in layer tarball"))
                | some content =>
                  match get_blob_digests (oracles.inspect content) with
                  | .error e => (fullTrace, .error e)
                  | .ok blob_digests =>
                    (fullTrace, .ok
                      { bootstrap_local_path := pathJoin output_dir "image.boot"
                        layers := blob_digests.map fun digest => { digest, backend }
                        image_config := NydusImageConfig.from_dict config_data })

/-! ## repacker.py -/

/-- The `nydus-image unpack` oracle: given bootstrap path, blob dir and
output tar path, `none` for exit 0, `some e` for the raised error. -/
abbrev UnpackOracle := FPath → FPath → FPath → Option PyError

/-- The `nydus-image create` oracle: given tar path, bootstrap path, blob
dir and the create_opts string, `none` for exit 0 (the new bootstrap and
blobs are then on disk), `some e` for the raised error. -/
abbrev CreateOracle := FPath → FPath → FPath → String → Option PyError

/-- The external tools repack_image drives, plus bootstrap inspection (keyed
by the path of the freshly created bootstrap). -/
structure RepackOracles where
  transport : Transport
  unpack : UnpackOracle
  create : CreateOracle
  inspect : FPath → List BlobEntry

/-- repacker.py `repack_nydus_image`: bootstrap goes to `repack_dir/bootstrap`;
blobs go to `target_blob_dir` when given (local-target optimization),
otherwise to `repack_dir/blobs`; then `nydus-image create` runs (create_opts
tokenization is passed through to the tool).  Returns (bootstrap path, blob
dir). -/
def repack_nydus_image (create : CreateOracle) (tar_path repack_dir : FPath)
    (create_opts : String) (target_blob_dir : Option FPath) :
    Except PyError (FPath × FPath) :=
  let bootstrap_path := pathJoin repack_dir "bootstrap"
  let blob_dir := target_blob_dir.getD (pathJoin repack_dir "blobs")
  match create tar_path bootstrap_path blob_dir create_opts with
  | some e => .error e
  | none => .ok (bootstrap_path, blob_dir)

/-- Step 1 of repacker.py `repack_image` (lines 95-122): if the layer list is
non-empty and the FIRST layer's backend is a local filesystem backend, use
its directory directly with no copy; otherwise create `temp_dir/local_blobs`,
rebind every layer to it, and run `copy_blobs` from the source image into
that local image.  Returns the local blob dir and the transport invocations
performed. -/
def localize_source (transport : Transport) (source_image : NydusImageWithBackends)
    (temp_dir : FPath) : Except PyError (FPath × List RcloneInvocation) :=
  match source_image.layers with
  | { digest := _, backend := .localFs b } :: _ => .ok (b.blob_dir, [])
  | _ =>
    let local_blob_dir := pathJoin temp_dir "local_blobs"
    let local_source_backend := NydusBackend.localFs ⟨local_blob_dir⟩
    let local_source_image : NydusImageWithBackends :=
      { bootstrap_local_path := source_image.bootstrap_local_path
        layers := source_image.layers.map fun layer =>
          { digest := layer.digest, backend := local_source_backend }
        image_config := source_image.image_config }
    match copy_blobs transport source_image local_source_image with
    | (invs, none) => .ok (local_blob_dir, invs)
    | (_, some e) => .error e

/-- repacker.py `repack_image`: localize the source blobs, unpack to a tar,
repack (directly into the target directory when the target backend is local),
re-inspect the new bootstrap for the new digests, and build the repacked
image (target backend) and the temp source image (local backend at the
directory where the blobs were actually materialized).  Returns the two
images plus the transport invocations of the localize step. -/
def repack_image (oracles : RepackOracles) (source_image : NydusImageWithBackends)
    (target_backend : NydusBackend) (create_opts : String) (temp_dir : FPath) :
    Except PyError (NydusImageWithBackends × NydusImageWithBackends × List RcloneInvocation) :=
  let unpack_tar_path := pathJoin temp_dir "unpacked.tar"
  let repack_dir := pathJoin temp_dir "repack"
  match localize_source oracles.transport source_image temp_dir with
  | .error e => .error e
  | .ok (local_blob_dir, invs) =>
    match oracles.unpack source_image.bootstrap_local_path local_blob_dir unpack_tar_path with
    | some e => .error e
    | none =>
      let target_blob_dir_for_create : Option FPath :=
        match target_backend with
        | .localFs b => some b.blob_dir
        | .s3 _ => none
      match repack_nydus_image oracles.create unpack_tar_path repack_dir
          create_opts target_blob_dir_for_create with
      | .error e => .error e
      | .ok (new_bootstrap_path, actual_blob_dir) =>
        match get_blob_digests (oracles.inspect new_bootstrap_path) with
        | .error e => .error e
        | .ok blob_digests =>
          let repacked_image : NydusImageWithBackends :=
            { bootstrap_local_path := new_bootstrap_path
              layers := blob_digests.map fun digest =>
                { digest, backend := target_backend }
              image_config := source_image.image_config }
          let temp_localfs_backend := NydusBackend.localFs ⟨actual_blob_dir⟩
          let temp_source_image : NydusImageWithBackends :=
            { bootstrap_local_path := new_bootstrap_path
              layers := blob_digests.map fun digest =>
                { digest, backend := temp_localfs_backend }
              image_config := repacked_image.image_config }
          .ok (repacked_image, temp_source_image, invs)

/-! ## Helper definitions and lemmas -/

/-- The transport invocation `copy_blob` issues for one source/target blob
pair (rclone configs named "source" and "target"). -/
def blobInv (q : NydusBlobLocation × NydusBlobLocation) : RcloneInvocation :=
  rcloneInvocation q.1.digest ⟨q.1.backend, "source"⟩ ⟨q.2.backend, "target"⟩

/-- A blob_id value that `get_blob_digests` rejects: not a string, empty,
containing a non-hex character, or shorter than 8 characters. -/
def badBlobId (v : PyVal) : Bool :=
  match v with
  | .vother _ => true
  | .vstr s => s == "" || s.toList.any (fun c => ! isHexChar c) || decide (s.length < 8)

theorem str_empty_iff (s : String) : s.length = 0 ↔ s = "" := by
  constructor
  · intro h
    cases s with
    | mk data =>
      simp [String.length] at h
      simp [h]
  · intro h; simp [h]

theorem badBlobId_false_elim (v : PyVal) (h : badBlobId v = false) :
    digestAssertError v = none := by
  cases v with
  | vother t => simp [badBlobId] at h
  | vstr s =>
    simp only [badBlobId, Bool.or_eq_false_iff] at h
    obtain ⟨⟨hne, hhex⟩, hlen⟩ := h
    have h1 : ¬ s.length = 0 := by
      intro h0
      rw [str_empty_iff] at h0
      simp [h0] at hne
    have h2 : s.toList.all isHexChar = true := by
      rw [List.all_eq_true]
      intro c hc
      rw [List.any_eq_false] at hhex
      have := hhex c hc
      simpa using this
    have h3 : ¬ s.length < 8 := by simpa using hlen
    simp only [digestAssertError]
    rw [if_neg h1, if_neg (not_not_intro h2), if_neg h3]

theorem digestAssertError_none_imp (v : PyVal) (h : digestAssertError v = none) :
    badBlobId v = false := by
  cases v with
  | vother t => simp [digestAssertError] at h
  | vstr s =>
    simp only [digestAssertError] at h
    split_ifs at h with h1 h2 h3
    have hall : s.toList.all isHexChar = true := h2
    have hne : (s == "") = false := by
      rw [beq_eq_false_iff_ne]
      intro he
      exact h1 ((str_empty_iff s).mpr he)
    have hany : (s.toList.any fun c => ! isHexChar c) = false := by
      rw [List.any_eq_false]
      intro c hc
      rw [List.all_eq_true] at hall
      simp [hall c hc]
    simp only [badBlobId]
    rw [hne, hany]
    simp [h3]

theorem extract_strings (vs : List PyVal) (h : ∀ v ∈ vs, badBlobId v = false) :
    (vs.filterMap fun v =>
      match v with
      | PyVal.vstr s => some s
      | PyVal.vother _ => none).map PyVal.vstr = vs := by
  induction vs with
  | nil => simp
  | cons v rest ih =>
    cases v with
    | vstr s =>
      simp only [List.filterMap_cons, List.map_cons]
      exact congrArg _ (ih fun v hv => h v (List.mem_cons_of_mem _ hv))
    | vother t =>
      have := h _ (List.mem_cons_self _ _)
      simp [badBlobId] at this

/-! ## Claim theorems -/

/-- C4: for every image descriptor `image` and backend `new_backend`,
`change_backends` (a pure total Lean function, so the input value is
untouched) returns a descriptor with the same bootstrap path, the same
layer count, the same digest at every index in the same order, the same
image config, and `new_backend` as the backend of every layer. -/
theorem c4_change_backends_preserves (image : NydusImageWithBackends)
    (new_backend : NydusBackend) :
    (change_backends image new_backend).bootstrap_local_path = image.bootstrap_local_path ∧
    (change_backends image new_backend).layers.length = image.layers.length ∧
    (change_backends image new_backend).layers.map (·.digest) = image.layers.map (·.digest) ∧
    (change_backends image new_backend).image_config = image.image_config ∧
    (change_backends image new_backend).layers.all
      (fun layer => layer.backend == new_backend) = true := by
  refine ⟨rfl, by simp [change_backends], by simp [change_backends], rfl, ?_⟩
  simp [change_backends, List.all_eq_true]

/-- C7: `get_blob_digests` fails with an assertion error iff some entry's
`blob_id` is not a string, or is empty, or contains a non-hex character, or
is shorter than 8 characters (`badBlobId`); when every entry passes those
checks — the only validation applied — it returns exactly the `blob_id`
strings in their original order. -/
theorem c7_get_blob_digests_validation (blob_data : List BlobEntry) :
    ((∃ e ∈ blob_data, badBlobId e.blob_id = true) →
      ∃ msg, get_blob_digests blob_data = .error (.assertionError msg)) ∧
    ((∀ e ∈ blob_data, badBlobId e.blob_id = false) →
      ∃ ds, get_blob_digests blob_data = .ok ds ∧
        blob_data.map (·.blob_id) = ds.map PyVal.vstr) := by
  constructor
  · rintro ⟨e, he, hbad⟩
    have hne : (blob_data.map (·.blob_id)).findSome? digestAssertError ≠ none := by
      intro hnone
      rw [List.findSome?_eq_none_iff] at hnone
      have := hnone e.blob_id (List.mem_map_of_mem _ he)
      rw [digestAssertError_none_imp _ this] at hbad
      cases hbad
    cases hfs : (blob_data.map (·.blob_id)).findSome? digestAssertError with
    | none => exact absurd hfs hne
    | some msg =>
      refine ⟨msg, ?_⟩
      simp only [get_blob_digests, hfs]
  · intro hgood
    have hnone : (blob_data.map (·.blob_id)).findSome? digestAssertError = none := by
      rw [List.findSome?_eq_none_iff]
      intro v hv
      obtain ⟨e, he, rfl⟩ := List.mem_map.mp hv
      exact badBlobId_false_elim _ (hgood e he)
    refine ⟨(blob_data.map (·.blob_id)).filterMap (fun v =>
        match v with
        | PyVal.vstr s => some s
        | PyVal.vother _ => none), by simp only [get_blob_digests, hnone], ?_⟩
    exact (extract_strings (blob_data.map (·.blob_id))
      (fun v hv => by
        obtain ⟨e, he, rfl⟩ := List.mem_map.mp hv
        exact hgood e he)).symm

/-- Witness for C7 at concrete inputs: a valid inspection output is returned
verbatim, and each of the four bad shapes is rejected. -/
theorem c7_witness :
    (∃ ds, get_blob_digests [⟨.vstr "deadbeef"⟩, ⟨.vstr "0123ABCD99"⟩] = .ok ds ∧
      [⟨.vstr "deadbeef"⟩, ⟨.vstr "0123ABCD99"⟩].map (BlobEntry.blob_id) = ds.map PyVal.vstr) ∧
    (∃ msg, get_blob_digests [⟨.vstr "ghijk123"⟩] = .error (.assertionError msg)) ∧
    (∃ msg, get_blob_digests [⟨.vstr ""⟩] = .error (.assertionError msg)) ∧
    (∃ msg, get_blob_digests [⟨.vother 0⟩] = .error (.assertionError msg)) ∧
    (∃ msg, get_blob_digests [⟨.vstr "abc123"⟩] = .error (.assertionError msg)) :=
  ⟨(c7_get_blob_digests_validation [⟨.vstr "deadbeef"⟩, ⟨.vstr "0123ABCD99"⟩]).2 (by decide),
   (c7_get_blob_digests_validation [⟨.vstr "ghijk123"⟩]).1 ⟨⟨.vstr "ghijk123"⟩, by decide, by decide⟩,
   (c7_get_blob_digests_validation [⟨.vstr ""⟩]).1 ⟨⟨.vstr ""⟩, by decide, by decide⟩,
   (c7_get_blob_digests_validation [⟨.vother 0⟩]).1 ⟨⟨.vother 0⟩, by decide, by decide⟩,
   (c7_get_blob_digests_validation [⟨.vstr "abc123"⟩]).1 ⟨⟨.vstr "abc123"⟩, by decide, by decide⟩⟩

theorem runBlobs_okTransport (ps : List (NydusBlobLocation × NydusBlobLocation))
    (h : ∀ p ∈ ps, p.1.digest = p.2.digest) :
    runBlobs okTransport ps =
      ((ps.filter fun p => p.1.backend != p.2.backend).map blobInv, none) := by
  induction ps with
  | nil => simp [runBlobs]
  | cons p rest ih =>
    have hd : p.1.digest = p.2.digest := h p (List.mem_cons_self _ _)
    have ht := ih fun q hq => h q (List.mem_cons_of_mem _ hq)
    by_cases hb : p.1.backend = p.2.backend
    · simp [runBlobs, copy_blob, hd, hb, ht, List.filter_cons]
    · simp [runBlobs, copy_blob, rclone_copy, okTransport, rcloneInvocation, blobInv,
        hd, hb, ht, List.filter_cons]

/-- C1: for copy-compatible images, `copy_blobs` (run with a transport on
which every invocation succeeds) invokes the transport tool for blob `i`
iff the source and target backends at index `i` are not structurally equal,
and each performed invocation carries that blob's digest (the trace is the
filter of the zipped layers by backend inequality, mapped to the invocation
built from the pair's digest); equal-backend blobs contribute no invocation. -/
theorem c1_copy_blobs_transport_iff (source_image target_image : NydusImageWithBackends)
    (h : copyCompatible source_image target_image) :
    copy_blobs okTransport source_image target_image =
      (((source_image.layers.zip target_image.layers).filter
          fun p => p.1.backend != p.2.backend).map blobInv, none) := by
  obtain ⟨h1, h2, h3⟩ := h
  have hany : ((source_image.layers.zip target_image.layers).any
      fun p => p.1.digest != p.2.digest) = false := by
    rw [List.any_eq_false]
    intro p hp
    simp [h3 p hp]
  simp only [copy_blobs, h1, h2, bne_self_eq_false, Bool.false_eq_true, if_false, hany]
  exact runBlobs_okTransport _ h3

def s3FixtureA : NydusBackend :=
  .s3 { endpoint := "http://s3.example", bucket := "bkt", region := "us"
        access_key := "AK", secret_key := "SK" }

def locFixtureB : NydusBackend := .localFs ⟨"/blobs/b/"⟩

def locFixtureC : NydusBackend := .localFs ⟨"/blobs/c/"⟩

def imageFixtureS : NydusImageWithBackends :=
  { bootstrap_local_path := "/work/bootstrap"
    layers := [ { digest := "aaaaaaaa", backend := s3FixtureA }
              , { digest := "bbbbbbbb", backend := locFixtureB } ]
    image_config := {} }

def imageFixtureT : NydusImageWithBackends :=
  { bootstrap_local_path := "/work/bootstrap"
    layers := [ { digest := "aaaaaaaa", backend := locFixtureC }
              , { digest := "bbbbbbbb", backend := locFixtureB } ]
    image_config := {} }

/-- Witness for C1: on a concrete copy-compatible pair differing only in
blob 0's backend, exactly the blob-0 invocation is performed. -/
theorem c1_witness :
    copy_blobs okTransport imageFixtureS imageFixtureT =
      (((imageFixtureS.layers.zip imageFixtureT.layers).filter
          fun p => p.1.backend != p.2.backend).map blobInv, none) :=
  c1_copy_blobs_transport_iff imageFixtureS imageFixtureT (by decide)

/-- C2: if the bootstrap paths differ, or the layer counts differ, or the
digests at some common index differ, then `copy_blobs` raises a ValueError
with no transport invocation performed (empty trace), for every transport. -/
theorem c2_preconditions_abort (transport : Transport)
    (s t : NydusImageWithBackends)
    (h : s.bootstrap_local_path ≠ t.bootstrap_local_path ∨
         s.layers.length ≠ t.layers.length ∨
         ∃ i, ∃ (hi : i < s.layers.length) (hj : i < t.layers.length),
           (s.layers.get ⟨i, hi⟩).digest ≠ (t.layers.get ⟨i, hj⟩).digest) :
    (copy_blobs transport s t).1 = [] ∧
    ∃ msg, (copy_blobs transport s t).2 = some (.valueError msg) := by
  by_cases h1 : s.bootstrap_local_path = t.bootstrap_local_path
  · by_cases h2 : s.layers.length = t.layers.length
    · rcases h with hc | hc | ⟨i, hi, hj, hne⟩
      · exact absurd h1 hc
      · exact absurd h2 hc
      · have hlen : i < (s.layers.zip t.layers).length := by
          rw [List.length_zip]
          exact lt_min hi hj
        have hany : ((s.layers.zip t.layers).any
            fun p => p.1.digest != p.2.digest) = true := by
          rw [List.any_eq_true]
          refine ⟨(s.layers.zip t.layers).get ⟨i, hlen⟩, List.get_mem _ _ hlen, ?_⟩
          simp only [List.get_eq_getElem, List.getElem_zip]
          simpa using hne
        simp [copy_blobs, h1, h2, hany]
    · have hb2 : (s.layers.length != t.layers.length) = true := by simpa using h2
      simp [copy_blobs, h1, hb2]
  · have hb1 : (s.bootstrap_local_path != t.bootstrap_local_path) = true := by simpa using h1
    simp [copy_blobs, hb1]

def imageFixtureShort : NydusImageWithBackends :=
  { bootstrap_local_path := "/work/bootstrap"
    layers := [ { digest := "aaaaaaaa", backend := s3FixtureA } ]
    image_config := {} }

/-- Witness for C2: layer counts 2 vs 1 abort with an empty trace. -/
theorem c2_witness :
    (copy_blobs okTransport imageFixtureS imageFixtureShort).1 = [] ∧
    ∃ msg, (copy_blobs okTransport imageFixtureS imageFixtureShort).2 =
      some (.valueError msg) :=
  c2_preconditions_abort okTransport imageFixtureS imageFixtureShort
    (Or.inr (Or.inl (by decide)))

theorem runBlobs_fail (transport : Transport)
    (ps₁ ps₂ : List (NydusBlobLocation × NydusBlobLocation))
    (p : NydusBlobLocation × NydusBlobLocation) (code : Int) (out err : String)
    (hdig : ∀ q ∈ ps₁ ++ p :: ps₂, q.1.digest = q.2.digest)
    (hok : ∀ q ∈ ps₁, q.1.backend = q.2.backend ∨ transport (blobInv q) = .ok)
    (hdiff : p.1.backend ≠ p.2.backend)
    (hfail : transport (blobInv p) = .fail code out err) :
    runBlobs transport (ps₁ ++ p :: ps₂) =
      ((ps₁.filter fun q => q.1.backend != q.2.backend).map blobInv ++ [blobInv p],
       some (.calledProcessError code out err)) := by
  simp only [blobInv] at hfail
  induction ps₁ with
  | nil =>
    have hd : p.1.digest = p.2.digest := hdig p (by simp)
    rw [hd] at hfail
    simp [runBlobs, copy_blob, rclone_copy, hd, hdiff, blobInv, hfail]
  | cons q rest ih =>
    have hdq : q.1.digest = q.2.digest := hdig q (by simp)
    have ihh := ih (fun r hr => hdig r (List.mem_cons_of_mem _ hr))
      (fun r hr => hok r (List.mem_cons_of_mem _ hr))
    by_cases hb : q.1.backend = q.2.backend
    · simp [runBlobs, copy_blob, hdq, hb, ihh, List.filter_cons]
    · have hto : transport (blobInv q) = .ok := by
        rcases hok q (List.mem_cons_self _ _) with h | h
        · exact absurd h hb
        · exact h
      simp only [blobInv] at hto
      rw [hdq] at hto
      simp [runBlobs, copy_blob, rclone_copy, hdq, hb, hto, ihh, List.filter_cons, blobInv]

/-- C3: for copy-compatible images, blobs are processed strictly in layer
order; if every pair before position `i` either skips (equal backends) or
succeeds, and the pair `p` at position `i` has differing backends and a
failing transport invocation (nonzero exit `code` with captured `out`/`err`),
then `copy_blobs` returns the invocations for the preceding blobs followed
by the failing invocation — nothing after `p` is attempted — and the error
is `CalledProcessError` carrying the exit code and captured output. -/
theorem c3_transport_failure_aborts (transport : Transport)
    (s t : NydusImageWithBackends)
    (ps₁ ps₂ : List (NydusBlobLocation × NydusBlobLocation))
    (p : NydusBlobLocation × NydusBlobLocation) (code : Int) (out err : String)
    (hcompat : copyCompatible s t)
    (hsplit : s.layers.zip t.layers = ps₁ ++ p :: ps₂)
    (hok : ∀ q ∈ ps₁, q.1.backend = q.2.backend ∨ transport (blobInv q) = .ok)
    (hdiff : p.1.backend ≠ p.2.backend)
    (hfail : transport (blobInv p) = .fail code out err) :
    copy_blobs transport s t =
      ((ps₁.filter fun q => q.1.backend != q.2.backend).map blobInv ++ [blobInv p],
       some (.calledProcessError code out err)) := by
  obtain ⟨h1, h2, h3⟩ := hcompat
  have hany : ((s.layers.zip t.layers).any
      fun q => q.1.digest != q.2.digest) = false := by
    rw [List.any_eq_false]
    intro q hq
    simp [h3 q hq]
  simp only [copy_blobs, h1, h2, bne_self_eq_false, Bool.false_eq_true, if_false, hany]
  rw [hsplit]
  exact runBlobs_fail transport ps₁ ps₂ p code out err
    (fun q hq => h3 q (by rw [hsplit]; exact hq)) hok hdiff hfail

/-- A transport that fails (exit 3) exactly on the invocation for digest
"bbbbbbbb" and succeeds elsewhere. -/
def failBTransport : Transport := fun inv =>
  if inv.digest == "bbbbbbbb" then .fail 3 "captured-out" "captured-err" else .ok

def imageFixtureT2 : NydusImageWithBackends :=
  { bootstrap_local_path := "/work/bootstrap"
    layers := [ { digest := "aaaaaaaa", backend := s3FixtureA }
              , { digest := "bbbbbbbb", backend := locFixtureC } ]
    image_config := {} }

/-- The skipped pair (equal backends) and the failing pair for the C3
witness run. -/
def pairFix0 : NydusBlobLocation × NydusBlobLocation :=
  ({ digest := "aaaaaaaa", backend := s3FixtureA },
   { digest := "aaaaaaaa", backend := s3FixtureA })

def pairFix1 : NydusBlobLocation × NydusBlobLocation :=
  ({ digest := "bbbbbbbb", backend := locFixtureB },
   { digest := "bbbbbbbb", backend := locFixtureC })

/-- Witness for C3: blob 0 (equal backends) is skipped, blob 1 fails with
exit 3, the error carries the code and captured output, and the trace holds
exactly the failing invocation. -/
theorem c3_witness :
    copy_blobs failBTransport imageFixtureS imageFixtureT2 =
      (([pairFix0].filter fun q => q.1.backend != q.2.backend).map blobInv ++
        [blobInv pairFix1],
       some (.calledProcessError 3 "captured-out" "captured-err")) :=
  c3_transport_failure_aborts failBTransport imageFixtureS imageFixtureT2
    [pairFix0] [] pairFix1 3 "captured-out" "captured-err"
    (by decide) (by decide) (by decide) (by decide) (by decide)

theorem from_dict_to_dict (c : NydusImageConfig) :
    NydusImageConfig.from_dict c.to_dict = c := by
  cases c
  simp [NydusImageConfig.from_dict, NydusImageConfig.to_dict]

/-- C8: with bootstrap inspection a fixed oracle (a function of the
bootstrap content), reading a directory, writing the result to a second
directory, and reading that back with the same backend yields a descriptor
with the same digest sequence and the same image config as the original
read. -/
theorem c8_dir_round_trip (inspect : InspectOracle) (state : DirState)
    (directory d2 : FPath) (backend : NydusBackend) (content : String)
    (img : NydusImageWithBackends)
    (hboot : state.bootstrap = some content)
    (hread : read_from_dir inspect state directory backend = .ok img) :
    ∃ img2, read_from_dir inspect (write_to_dir content img) d2 backend = .ok img2 ∧
      img2.layers.map (·.digest) = img.layers.map (·.digest) ∧
      img2.image_config = img.image_config := by
  simp only [read_from_dir, hboot] at hread
  cases hgd : get_blob_digests (inspect content) with
  | error e => simp [hgd] at hread
  | ok ds =>
    simp only [hgd] at hread
    have him := Except.ok.inj hread
    have hsecond : read_from_dir inspect (write_to_dir content img) d2 backend =
        .ok { bootstrap_local_path := pathJoin d2 "bootstrap"
              layers := ds.map fun digest => { digest, backend }
              image_config := img.image_config } := by
      simp only [read_from_dir, write_to_dir, hgd, from_dict_to_dict]
    refine ⟨_, hsecond, ?_, rfl⟩
    rw [← him]

/-- Inspection oracle for the C8 witness: content "BOOT" holds one blob. -/
def inspectFixture : InspectOracle := fun content =>
  if content == "BOOT" then [⟨.vstr "deadbeef"⟩] else []

def dirFixture : DirState := { bootstrap := some "BOOT", configJson := none }

def imgFixtureD1 : NydusImageWithBackends :=
  { bootstrap_local_path := "/d1/bootstrap"
    layers := [ { digest := "deadbeef", backend := locFixtureB } ]
    image_config := {} }

/-- Witness for C8 on a concrete directory with one blob. -/
theorem c8_witness :
    ∃ img2, read_from_dir inspectFixture (write_to_dir "BOOT" imgFixtureD1) "/d2" locFixtureB =
        .ok img2 ∧
      img2.layers.map (·.digest) = imgFixtureD1.layers.map (·.digest) ∧
      img2.image_config = imgFixtureD1.image_config :=
  c8_dir_round_trip inspectFixture dirFixture "/d1" "/d2" locFixtureB "BOOT" imgFixtureD1
    (by decide) (by rfl)

/-- Registry oracles that serve empty data; the claims below only concern
validation and trace behaviour, which do not depend on the oracles. -/
def trivialRegistryOracles : RegistryOracles :=
  { configBlob := fun _ => {}
    bootstrapBlob := fun _ => none
    inspect := fun _ => [] }

/-- C5 (refuted — code bug): the manifest built for upload has schemaVersion 2
and one tar+gzip layer with the two nydus annotations, but its config entry's
media type is `application/vnd.docker.container.image.v1+json`, not the
claimed `application/vnd.oci.image.config.v1+json`; consequently the
project's own download validation in the same file rejects the manifest that
`create_oci_manifest` builds, before downloading anything. -/
theorem c5_config_media_type_bug :
    (create_oci_manifest "sha256:cfg" 7 "sha256:boot" 9).config =
      some { mediaType := some "application/vnd.docker.container.image.v1+json"
             digest := some "sha256:cfg"
             size := some 7 } ∧
    (create_oci_manifest "sha256:cfg" 7 "sha256:boot" 9).schemaVersion = some 2 ∧
    ((create_oci_manifest "sha256:cfg" 7 "sha256:boot" 9).layers.getD []).map
        (fun layer => (layer.mediaType, layer.annots)) =
      [ (some "application/vnd.oci.image.layer.v1.tar+gzip",
         some [ ("containerd.io/snapshot/nydus-bootstrap", "true")
              , ("containerd.io/snapshot/nydus-fs-version", "6") ]) ] ∧
    "application/vnd.docker.container.image.v1+json" ≠
      "application/vnd.oci.image.config.v1+json" ∧
    download_bootstrap_and_manifest trivialRegistryOracles
        (create_oci_manifest "sha256:cfg" 7 "sha256:boot" 9) locFixtureB "/out" =
      ([], .error (.valueError "Unexpected config media type")) :=
  ⟨rfl, rfl, rfl, by decide, rfl⟩

def goodLayerFixture : ManifestLayer :=
  { mediaType := some "application/vnd.oci.image.layer.v1.tar+gzip"
    digest := some "sha256:layerblob"
    size := some 5
    annots := some [ ("containerd.io/snapshot/nydus-bootstrap", "true")
                   , ("containerd.io/snapshot/nydus-fs-version", "6") ] }

/-- An otherwise well-formed manifest whose only defect is having two layers. -/
def twoLayerManifestFixture : Manifest :=
  { schemaVersion := some 2
    mediaType := some "application/vnd.oci.image.manifest.v1+json"
    config := some { mediaType := some "application/vnd.oci.image.config.v1+json"
                     digest := some "sha256:cfg"
                     size := some 3 }
    layers := some [goodLayerFixture, goodLayerFixture] }

/-- Counterexample to C6 as stated: on a manifest with 2 layers, the download
path does reject, but only after the config blob has been fetched with
`regctl blob get` — the trace of blob downloads at rejection time is
non-empty, so the rejection does not happen before any blob download. -/
theorem c6_counterexample :
    download_bootstrap_and_manifest trivialRegistryOracles twoLayerManifestFixture
        locFixtureB "/out" =
      ([DlEvent.blobGet "sha256:cfg"],
       .error (.valueError "Expected exactly 1 layer in manifest")) ∧
    [DlEvent.blobGet "sha256:cfg"] ≠ ([] : List DlEvent) :=
  ⟨rfl, by decide⟩

/-- The bad manifests of claim C6: wrong schemaVersion, or layer count ≠ 1,
or a single layer lacking the nydus-fs-version "6" annotation. -/
def badManifest (m : Manifest) : Prop :=
  m.schemaVersion ≠ some 2 ∨
  (m.layers.getD []).length ≠ 1 ∨
  ∃ L, m.layers.getD [] = [L] ∧
    (L.annots.getD []).lookup "containerd.io/snapshot/nydus-fs-version" ≠ some "6"

/-- C6 (amended): a manifest whose schemaVersion is not 2, or whose layer
count is not 1, or whose single layer lacks the nydus-fs-version "6"
annotation is always rejected, and at rejection time the only blob download
that may have occurred is the config blob's — a wrong schemaVersion is
rejected before any download, while the layer-count and annotation checks
run after the config blob download but before the bootstrap layer download. -/
theorem c6_rejects_before_bootstrap_download (oracles : RegistryOracles)
    (m : Manifest) (backend : NydusBackend) (output_dir : FPath)
    (h : badManifest m) :
    (∃ e, (download_bootstrap_and_manifest oracles m backend output_dir).2 = .error e) ∧
    ∀ ev ∈ (download_bootstrap_and_manifest oracles m backend output_dir).1,
      ∃ cs cd, m.config = some cs ∧ cs.digest = some cd ∧ ev = DlEvent.blobGet cd := by
  unfold download_bootstrap_and_manifest
  split
  · exact ⟨⟨_, rfl⟩, by simp⟩
  next h1 =>
    have h1' : m.schemaVersion = some 2 := by simpa using h1
    split
    · exact ⟨⟨_, rfl⟩, by simp⟩
    next h2 =>
      split
      · exact ⟨⟨_, rfl⟩, by simp⟩
      next cs hcs =>
        split
        · exact ⟨⟨_, rfl⟩, by simp⟩
        next h3 =>
          split
          · exact ⟨⟨_, rfl⟩, by simp⟩
          next cd hcd =>
            have htr : ∀ ev ∈ [DlEvent.blobGet cd],
                ∃ cs' cd', m.config = some cs' ∧ cs'.digest = some cd' ∧
                  ev = DlEvent.blobGet cd' := by
              intro ev hev
              refine ⟨cs, cd, hcs, hcd, ?_⟩
              simpa using hev
            split
            next hlay => exact ⟨⟨_, rfl⟩, htr⟩
            next L rest hlay =>
              split
              · exact ⟨⟨_, rfl⟩, htr⟩
              next hrest =>
                have hrest' : rest = [] := by
                  simpa using hrest
                split
                · exact ⟨⟨_, rfl⟩, htr⟩
                next h4 =>
                  split
                  · exact ⟨⟨_, rfl⟩, htr⟩
                  next h5 =>
                    split
                    · exact ⟨⟨_, rfl⟩, htr⟩
                    next h6 =>
                      exfalso
                      have h6' : (L.annots.getD []).lookup
                          "containerd.io/snapshot/nydus-fs-version" = some "6" := by
                        simpa using h6
                      rcases h with hv | hc | ⟨L', hL', hA⟩
                      · exact hv h1'
                      · apply hc
                        rw [hlay, hrest']
                        rfl
                      · rw [hlay, hrest'] at hL'
                        have : L = L' := by
                          injection hL'
                        rw [← this] at hA
                        exact hA h6'

def schema1ManifestFixture : Manifest := { schemaVersion := some 1 }

/-- Witness for C6 (amended) at a concrete schemaVersion-1 manifest: it is
rejected and its download trace is empty. -/
theorem c6_witness :
    (∃ e, (download_bootstrap_and_manifest trivialRegistryOracles schema1ManifestFixture
        locFixtureB "/out").2 = .error e) ∧
    ∀ ev ∈ (download_bootstrap_and_manifest trivialRegistryOracles schema1ManifestFixture
        locFixtureB "/out").1,
      ∃ cs cd, schema1ManifestFixture.config = some cs ∧ cs.digest = some cd ∧
        ev = DlEvent.blobGet cd :=
  c6_rejects_before_bootstrap_download trivialRegistryOracles schema1ManifestFixture
    locFixtureB "/out" (Or.inl (by decide))

/-- A source image whose first layer is local but whose second layer lives
on S3 — its blobs do not all reside on a local-filesystem backend. -/
def mixedImageFixture : NydusImageWithBackends :=
  { bootstrap_local_path := "/src/bootstrap"
    layers := [ { digest := "aaaaaaaa", backend := .localFs ⟨"/localdir/"⟩ }
              , { digest := "bbbbbbbb", backend := s3FixtureA } ]
    image_config := {} }

/-- Counterexample to C9 as stated: on a source image whose blobs do NOT all
reside on a local-filesystem backend (the second layer is on S3), the
LOCALIZE_SOURCE step still takes the "use directly" path — it returns the
first layer's local directory with zero transport invocations, creating no
fresh `temp_dir/local_blobs` directory and pulling nothing — because the
code tests only the first layer's backend. -/
theorem c9_counterexample :
    (mixedImageFixture.layers.any fun layer =>
      match layer.backend with
      | .s3 _ => true
      | .localFs _ => false) = true ∧
    localize_source okTransport mixedImageFixture "/tmp" = .ok ("/localdir/", []) ∧
    "/localdir/" ≠ pathJoin "/tmp" "local_blobs" :=
  ⟨by decide, rfl, by decide⟩

/-- C9 (amended): the LOCALIZE_SOURCE decision is made by the backend of the
FIRST layer only: if the layer list is non-empty and its first layer's
backend is local-filesystem, that backend's directory is used directly with
no copy; otherwise (empty layer list, or first layer on S3) the fresh local
directory `temp_dir/local_blobs` is used and the blob-copy orchestrator is
invoked to pull the source blobs into it. -/
theorem c9_localize_first_layer_decision (transport : Transport)
    (source_image : NydusImageWithBackends) (temp_dir : FPath) :
    (∀ l rest b, source_image.layers = l :: rest →
      l.backend = NydusBackend.localFs b →
      localize_source transport source_image temp_dir = .ok (b.blob_dir, [])) ∧
    ((source_image.layers = [] ∨
      ∃ l rest sb, source_image.layers = l :: rest ∧ l.backend = NydusBackend.s3 sb) →
      localize_source transport source_image temp_dir =
        (match copy_blobs transport source_image
            { bootstrap_local_path := source_image.bootstrap_local_path
              layers := source_image.layers.map fun layer =>
                { digest := layer.digest
                  backend := NydusBackend.localFs ⟨pathJoin temp_dir "local_blobs"⟩ }
              image_config := source_image.image_config } with
         | (invs, none) => .ok (pathJoin temp_dir "local_blobs", invs)
         | (_, some e) => .error e)) := by
  obtain ⟨bootstrap, layers, image_config⟩ := source_image
  cases layers with
  | nil =>
    refine ⟨?_, ?_⟩
    · intro l rest b hcons
      cases hcons
    · intro _
      rfl
  | cons l rest =>
    obtain ⟨digest, backend⟩ := l
    cases backend with
    | localFs b =>
      refine ⟨?_, ?_⟩
      · intro l' rest' b' hcons hback
        injection hcons with h1 h2
        rw [← h1] at hback
        injection hback with hb
        rw [← hb]
        rfl
      · rintro (hnil | ⟨l', rest', sb, hcons, hback⟩)
        · cases hnil
        · injection hcons with h1 h2
          rw [← h1] at hback
          cases hback
    | s3 sb =>
      refine ⟨?_, ?_⟩
      · intro l' rest' b' hcons hback
        injection hcons with h1 h2
        rw [← h1] at hback
        cases hback
      · intro _
        rfl

/-- Witness for C9 (amended) on a one-layer local-backend image: its blob
directory is used directly, with no transport invocation. -/
theorem c9_witness :
    localize_source okTransport imgFixtureD1 "/tmp" =
      .ok (("/blobs/b/" : FPath), ([] : List RcloneInvocation)) :=
  (c9_localize_first_layer_decision okTransport imgFixtureD1 "/tmp").1
    { digest := "deadbeef", backend := locFixtureB } [] ⟨"/blobs/b/"⟩ rfl rfl

theorem repack_nydus_image_ok (create : CreateOracle) (tar rdir : FPath)
    (opts : String) (tbd : Option FPath) (nb ab : FPath)
    (h : repack_nydus_image create tar rdir opts tbd = .ok (nb, ab)) :
    nb = pathJoin rdir "bootstrap" ∧ ab = tbd.getD (pathJoin rdir "blobs") := by
  simp only [repack_nydus_image] at h
  split at h
  · simp at h
  · have h' := Except.ok.inj h
    rw [Prod.ext_iff] at h'
    obtain ⟨h1, h2⟩ := h'
    exact ⟨h1.symm, h2.symm⟩

theorem repack_image_ok_shape (oracles : RepackOracles)
    (source_image : NydusImageWithBackends) (target_backend : NydusBackend)
    (create_opts : String) (temp_dir : FPath)
    (tgt tmp : NydusImageWithBackends) (invs : List RcloneInvocation)
    (hok : repack_image oracles source_image target_backend create_opts temp_dir =
      .ok (tgt, tmp, invs)) :
    ∃ (ds : List String) (dblob : FPath),
      tgt = { bootstrap_local_path := pathJoin (pathJoin temp_dir "repack") "bootstrap"
              layers := ds.map fun digest => { digest := digest, backend := target_backend }
              image_config := source_image.image_config } ∧
      tmp = { bootstrap_local_path := pathJoin (pathJoin temp_dir "repack") "bootstrap"
              layers := ds.map fun digest =>
                { digest := digest, backend := NydusBackend.localFs ⟨dblob⟩ }
              image_config := source_image.image_config } ∧
      dblob = (match target_backend with
        | .localFs b => b.blob_dir
        | .s3 _ => pathJoin (pathJoin temp_dir "repack") "blobs") := by
  cases hloc : localize_source oracles.transport source_image temp_dir with
  | error e => simp [repack_image, hloc] at hok
  | ok pr =>
    obtain ⟨a, b⟩ := pr
    cases hunp : oracles.unpack source_image.bootstrap_local_path a
        (pathJoin temp_dir "unpacked.tar") with
    | some e => simp [repack_image, hloc, hunp] at hok
    | none =>
      cases target_backend with
      | s3 sb =>
        cases hrep : repack_nydus_image oracles.create (pathJoin temp_dir "unpacked.tar")
            (pathJoin temp_dir "repack") create_opts none with
        | error e => simp [repack_image, hloc, hunp, hrep] at hok
        | ok pr2 =>
          obtain ⟨nb, ab⟩ := pr2
          obtain ⟨hnb, hab⟩ := repack_nydus_image_ok oracles.create _ _ _ _ _ _ hrep
          cases hds : get_blob_digests (oracles.inspect nb) with
          | error e => simp [repack_image, hloc, hunp, hrep, hds] at hok
          | ok ds =>
            simp only [repack_image, hloc, hunp, hrep, hds] at hok
            have h := Except.ok.inj hok
            simp only [Prod.mk.injEq] at h
            obtain ⟨htgt, htmp, hinv⟩ := h
            simp only [Option.getD] at hab
            refine ⟨ds, ab, ?_, ?_, by rw [hab]⟩
            · rw [← htgt, hnb]
            · rw [← htmp, hnb]
      | localFs lb =>
        cases hrep : repack_nydus_image oracles.create (pathJoin temp_dir "unpacked.tar")
            (pathJoin temp_dir "repack") create_opts (some lb.blob_dir) with
        | error e => simp [repack_image, hloc, hunp, hrep] at hok
        | ok pr2 =>
          obtain ⟨nb, ab⟩ := pr2
          obtain ⟨hnb, hab⟩ := repack_nydus_image_ok oracles.create _ _ _ _ _ _ hrep
          cases hds : get_blob_digests (oracles.inspect nb) with
          | error e => simp [repack_image, hloc, hunp, hrep, hds] at hok
          | ok ds =>
            simp only [repack_image, hloc, hunp, hrep, hds] at hok
            have h := Except.ok.inj hok
            simp only [Prod.mk.injEq] at h
            obtain ⟨htgt, htmp, hinv⟩ := h
            simp only [Option.getD] at hab
            refine ⟨ds, ab, ?_, ?_, by rw [hab]⟩
            · rw [← htgt, hnb]
            · rw [← htmp, hnb]

/-- C10: whenever `repack_image` succeeds, the returned target image and
temp-source image are copy-compatible (same new bootstrap path, same layer
count, equal digests at every index — so a subsequent
`copy_blobs(temp_source, target)` passes all three preconditions); every
target layer carries the target backend; every temp-source layer carries a
local-filesystem backend at the directory where the repack materialized the
blobs (the target's own directory when the target backend is local,
otherwise the scratch directory `temp_dir/repack/blobs`); and both images
carry the source's image config. -/
theorem c10_repack_outputs_copy_compatible (oracles : RepackOracles)
    (source_image : NydusImageWithBackends) (target_backend : NydusBackend)
    (create_opts : String) (temp_dir : FPath)
    (tgt tmp : NydusImageWithBackends) (invs : List RcloneInvocation)
    (hok : repack_image oracles source_image target_backend create_opts temp_dir =
      .ok (tgt, tmp, invs)) :
    copyCompatible tmp tgt ∧
    tgt.bootstrap_local_path = tmp.bootstrap_local_path ∧
    tgt.layers.map (·.digest) = tmp.layers.map (·.digest) ∧
    tgt.layers.all (fun layer => layer.backend == target_backend) = true ∧
    (∃ d, tmp.layers.all (fun layer =>
        layer.backend == NydusBackend.localFs ⟨d⟩) = true ∧
      d = (match target_backend with
           | .localFs b => b.blob_dir
           | .s3 _ => pathJoin (pathJoin temp_dir "repack") "blobs")) ∧
    tgt.image_config = source_image.image_config ∧
    tmp.image_config = source_image.image_config := by
  obtain ⟨ds, dblob, htgt, htmp, hd⟩ :=
    repack_image_ok_shape oracles source_image target_backend create_opts temp_dir
      tgt tmp invs hok
  subst htgt
  subst htmp
  refine ⟨⟨rfl, by simp, ?_⟩, rfl, by simp, ?_, ⟨dblob, ?_, hd⟩, rfl, rfl⟩
  · intro p hp
    rw [List.zip_map'] at hp
    obtain ⟨d, hdm, rfl⟩ := List.mem_map.mp hp
    rfl
  · rw [List.all_eq_true]
    intro layer hl
    obtain ⟨d, hdm, rfl⟩ := List.mem_map.mp hl
    simp
  · rw [List.all_eq_true]
    intro layer hl
    obtain ⟨d, hdm, rfl⟩ := List.mem_map.mp hl
    simp

/-- Oracles for the C10 witness: all external tools succeed and the new
bootstrap holds one blob. -/
def repackOraclesFixture : RepackOracles :=
  { transport := okTransport
    unpack := fun _ _ _ => none
    create := fun _ _ _ _ => none
    inspect := fun _ => [⟨.vstr "deadbeef"⟩] }

def repackTgtFixture : NydusImageWithBackends :=
  { bootstrap_local_path := "/t/repack/bootstrap"
    layers := [ { digest := "deadbeef", backend := s3FixtureA } ]
    image_config := {} }

def repackTmpFixture : NydusImageWithBackends :=
  { bootstrap_local_path := "/t/repack/bootstrap"
    layers := [ { digest := "deadbeef", backend := .localFs ⟨"/t/repack/blobs"⟩ } ]
    image_config := {} }

/-- Witness for C10 on a concrete successful repack to an S3 target. -/
theorem c10_witness :
    copyCompatible repackTmpFixture repackTgtFixture ∧
    repackTgtFixture.bootstrap_local_path = repackTmpFixture.bootstrap_local_path ∧
    repackTgtFixture.layers.map (·.digest) = repackTmpFixture.layers.map (·.digest) ∧
    repackTgtFixture.layers.all (fun layer => layer.backend == s3FixtureA) = true ∧
    (∃ d, repackTmpFixture.layers.all (fun layer =>
        layer.backend == NydusBackend.localFs ⟨d⟩) = true ∧
      d = (match s3FixtureA with
           | .localFs b => b.blob_dir
           | .s3 _ => pathJoin (pathJoin "/t" "repack") "blobs")) ∧
    repackTgtFixture.image_config = imgFixtureD1.image_config ∧
    repackTmpFixture.image_config = imgFixtureD1.image_config :=
  c10_repack_outputs_copy_compatible repackOraclesFixture imgFixtureD1 s3FixtureA ""
    "/t" repackTgtFixture repackTmpFixture [] (by rfl)
